import Mathlib

/-!
Shallow embedding of the PingDao uptime-client core
(`src/uptime-client/src/services/monitor.js`, `src/uptime-client/src/services/websocket.js`,
with numeric defaults from `config/default.js`).

Timestamps, durations and metric readings are modelled as rationals (JS numbers),
JS `null`/`undefined` as `Option`, and fallible external providers (os-utils,
systeminformation, the Solana reward issuer, the raw WebSocket transport) as
explicit `Except`/`Bool` parameters of the functions that consume them.
-/

set_option autoImplicit false

namespace PingDao

/-! ### Data model (monitor.js lines 17-33, 427-549, 552-586) -/

/-- Message priority of an outbound websocket message (websocket.js line 232). -/
inductive Priority where
  | high
  | normal
  | low
deriving DecidableEq, Repr

/-- An outbound wire message `{type, data, timestamp, priority}` (websocket.js lines 228-233).
The JSON payload is kept opaque as a string. -/
structure Message where
  msgType : String
  payload : String
  timestamp : ℚ
  priority : Priority
deriving DecidableEq, Repr

/-- CPU reading built by `collectMetrics` (monitor.js lines 451-456); the static
`model`/`speed` fields are carried through unchanged and omitted here. -/
structure CpuReading where
  usage : ℚ
  cores : ℕ
deriving DecidableEq, Repr

/-- Memory reading built by `collectMetrics` (monitor.js lines 465-470). -/
structure MemReading where
  total : ℚ
  free : ℚ
  used : ℚ
  usagePercentage : ℚ
deriving DecidableEq, Repr

/-- One filesystem entry of the disk reading (monitor.js lines 483-490). -/
structure DiskFs where
  fs : String
  fsType : String
  size : ℚ
  used : ℚ
  available : ℚ
  usagePercentage : ℚ
deriving DecidableEq, Repr

/-- One interface entry of the network reading (monitor.js lines 507-513). -/
structure NetStat where
  iface : String
  rxBytes : ℚ
  txBytes : ℚ
  rxErrors : ℚ
  txErrors : ℚ
deriving DecidableEq, Repr

/-- A timeout-guarded metric domain is either still the initial empty object `{}`,
a list of readings, or the `{error: message}` marker written by the catch branch
(monitor.js lines 491-494 and 514-517). -/
inductive DomainData (α : Type) where
  | empty
  | readings (xs : List α)
  | errMarker (msg : String)
deriving DecidableEq, Repr

/-- Uptime reading built by `collectMetrics` (monitor.js lines 521-527). -/
structure UptimeReading where
  system : ℚ
  proc : ℚ
  client : ℚ
deriving DecidableEq, Repr

/-- Static host information (monitor.js lines 430-435). -/
structure SystemInfo where
  platform : String
  arch : String
  hostname : String
  uptime : ℚ
deriving DecidableEq, Repr

/-- Result of one monitoring-task execution, projected to the fields the core
reads back (`success`, `timestamp`; monitor.js lines 537-540). -/
structure TaskResult where
  success : Bool
  timestamp : ℚ
deriving DecidableEq, Repr

/-- A task interval is either a millisecond duration or a cron expression
(monitor.js lines 284-291). -/
inductive TaskInterval where
  | ms (q : ℚ)
  | cronExpr (s : String)
deriving DecidableEq, Repr

/-- A user-defined monitoring task (spec `Task`; monitor.js lines 257-278). -/
structure Task where
  id : String
  name : String
  taskType : String
  target : String
  interval : TaskInterval
  lastRunTime : Option ℚ
  lastResult : Option TaskResult
deriving DecidableEq, Repr

/-- Task projection reported inside snapshots and query results
(monitor.js lines 531-541 and 650-657). -/
structure TaskSummary where
  id : String
  name : String
  taskType : String
  target : String
  lastRunTime : Option ℚ
  lastResult : Option TaskResult
deriving DecidableEq, Repr

/-- The `MetricSnapshot` assembled by `collectMetrics` (monitor.js lines 428-544).
Fields of the initial `{}` sub-objects that are still unset are `none`/`empty`. -/
structure Metrics where
  timestamp : ℚ
  system : Option SystemInfo
  cpu : Option CpuReading
  memory : Option MemReading
  disk : DomainData DiskFs
  network : DomainData NetStat
  uptime : Option UptimeReading
  tasks : Option (List TaskSummary)
deriving DecidableEq, Repr

/-- A history point `{timestamp, cpu, memory, uptime}` (monitor.js lines 563-568);
the projected fields are `undefined` (= `none`) when a domain was disabled. -/
structure HistoryPoint where
  timestamp : ℚ
  cpu : Option ℚ
  memory : Option ℚ
  uptime : Option ℚ
deriving DecidableEq, Repr

/-- Last-error record of the error counter (monitor.js lines 404-407). -/
structure ErrorInfo where
  timestamp : ℚ
  message : String
deriving DecidableEq, Repr

/-- The module-level `monitoringData` singleton (monitor.js lines 17-33). -/
structure MonitoringData where
  startTime : ℚ
  lastRewardTime : Option ℚ
  metrics : Metrics
  monitoringTasks : List Task
  history : List HistoryPoint
  errorsCount : ℕ
  errorsLastError : Option ErrorInfo
deriving DecidableEq, Repr

/-- The initial `monitoringData.metrics` value: every domain is `{}`. -/
def emptyMetrics : Metrics :=
  { timestamp := 0, system := none, cpu := none, memory := none,
    disk := .empty, network := .empty, uptime := none, tasks := none }

/-- The initial `monitoringData` value at boot time `bootTime` (monitor.js lines 17-33). -/
def initialMonitoringData (bootTime : ℚ) : MonitoringData :=
  { startTime := bootTime, lastRewardTime := none, metrics := emptyMetrics,
    monitoringTasks := [], history := [], errorsCount := 0, errorsLastError := none }

/-! ### JS truthiness helpers -/

/-- JS truthiness of a nullable number: `null`/`undefined` and `0` are falsy. -/
def jsTruthy : Option ℚ → Bool
  | none => false
  | some t => decide (t ≠ 0)

/-- Value of a nullable number where the source has already ensured truthiness. -/
def jsVal (o : Option ℚ) : ℚ := o.getD 0

/-! ### Metrics collection (monitor.js lines 427-549) -/

/-- Which metric domains are enabled (`config.monitoring.metrics`). -/
structure MetricsConfig where
  cpu : Bool
  memory : Bool
  disk : Bool
  network : Bool
  uptime : Bool
deriving DecidableEq, Repr

/-- The shipped configuration enables every domain (config/default.js). -/
def defaultMetricsConfig : MetricsConfig :=
  { cpu := true, memory := true, disk := true, network := true, uptime := true }

/-- One collection cycle's view of the external providers.  `cpuLoad` is the
os-utils callback result (not guarded by any timeout in the source), while
`diskInfo`/`networkStats` are the outcomes of the `Promise.race` against the
5000-unit timeout: a timeout surfaces as `.error "... timeout"` exactly like a
provider rejection (monitor.js lines 476-481 and 500-505). -/
structure ProviderEnv where
  now : ℚ
  platform : String
  arch : String
  hostname : String
  systemUptime : ℚ
  processUptime : ℚ
  cpuLoad : Except String ℚ
  cpuCores : ℕ
  totalMemory : ℚ
  freeMemory : ℚ
  diskInfo : Except String (List DiskFs)
  networkStats : Except String (List NetStat)

/-- Projection of a task for the snapshot/query surfaces. -/
def taskSummary (t : Task) : TaskSummary :=
  { id := t.id, name := t.name, taskType := t.taskType, target := t.target,
    lastRunTime := t.lastRunTime, lastResult := t.lastResult }

/-- The `collectMetrics` pipeline (monitor.js lines 427-549).  Disk and network
failures (including their 5000-unit timeouts) are caught per-domain and turned
into `{error}` markers; a cpu provider failure is not guarded and rejects the
whole collection (the outer catch at lines 545-548 rethrows). -/
def collectMetrics (cfg : MetricsConfig) (env : ProviderEnv) (s : MonitoringData) :
    Except String Metrics := do
  let cpu : Option CpuReading ←
    if cfg.cpu then
      match env.cpuLoad with
      | .ok load => pure (some { usage := load * 100, cores := env.cpuCores })
      | .error e => throw e
    else pure none
  let memory : Option MemReading :=
    if cfg.memory then
      some { total := env.totalMemory, free := env.freeMemory,
             used := env.totalMemory - env.freeMemory,
             usagePercentage := (env.totalMemory - env.freeMemory) / env.totalMemory * 100 }
    else none
  let disk : DomainData DiskFs :=
    if cfg.disk then
      match env.diskInfo with
      | .ok l => .readings l
      | .error e => .errMarker e
    else .empty
  let network : DomainData NetStat :=
    if cfg.network then
      match env.networkStats with
      | .ok l => .readings l
      | .error e => .errMarker e
    else .empty
  let uptime : Option UptimeReading :=
    if cfg.uptime then
      some { system := env.systemUptime, proc := env.processUptime,
             client := (env.now - s.startTime) / 1000 }
    else none
  let tasks : Option (List TaskSummary) :=
    if s.monitoringTasks.length > 0 then some (s.monitoringTasks.map taskSummary) else none
  pure { timestamp := env.now,
         system := some { platform := env.platform, arch := env.arch,
                          hostname := env.hostname, uptime := env.systemUptime },
         cpu := cpu, memory := memory, disk := disk, network := network,
         uptime := uptime, tasks := tasks }

/-- The history projection pushed by `processMetrics` (monitor.js lines 563-568). -/
def historyPoint (m : Metrics) : HistoryPoint :=
  { timestamp := m.timestamp,
    cpu := m.cpu.map (fun c => c.usage),
    memory := m.memory.map (fun c => c.usagePercentage),
    uptime := m.uptime.map (fun c => c.client) }

/-- The `processMetrics` routine (monitor.js lines 552-586): replace the current
snapshot, append a history point, evict the oldest point past 100 entries, and
forward the snapshot over the websocket when connected (the returned flag;
when disconnected only a warning is logged). -/
def processMetrics (s : MonitoringData) (m : Metrics) (connected : Bool) :
    MonitoringData × Bool :=
  let s1 := { s with metrics := m }
  let h := s1.history ++ [historyPoint m]
  let h2 := if h.length > 100 then h.tail else h
  ({ s1 with history := h2 }, connected)

/-- The `handleMetricsError` routine (monitor.js lines 402-424): bump the error
counter, record the error, and (returned flag) force a websocket reconnect when
the count reaches 5 while the socket is disconnected. -/
def handleMetricsError (s : MonitoringData) (now : ℚ) (msg : String) (wsConnected : Bool) :
    MonitoringData × Bool :=
  let s1 := { s with errorsCount := s.errorsCount + 1,
                     errorsLastError := some { timestamp := now, message := msg } }
  (s1, decide (5 ≤ s1.errorsCount) && !wsConnected)

/-- The body of the metrics cron callback registered by `init`
(monitor.js lines 46-63): on success process the snapshot and reset the error
counter; on failure delegate to `handleMetricsError`.  The returned flag is the
forced-reconnect trigger of the failure path. -/
def metricsTick (s : MonitoringData) (res : Except String Metrics) (now : ℚ)
    (wsConnected : Bool) : MonitoringData × Bool :=
  match res with
  | .ok m =>
    let s1 := (processMetrics s m wsConnected).1
    if s1.errorsCount > 0 then
      ({ s1 with errorsCount := 0, errorsLastError := none }, false)
    else (s1, false)
  | .error e => handleMetricsError s now e wsConnected

/-! ### Reward evaluation (monitor.js lines 589-629) -/

/-- The `distributeRewards` routine (monitor.js lines 589-629).  `rewardInterval`
and `rewardAmountCfg` are `config.solana.rewardInterval`/`rewardAmount`;
`issuerOk` is whether `solanaService.sendReward` resolves.  The second component
is `some amount` exactly when the reward issuer was invoked, with the amount
passed to it; on issuer failure the catch branch leaves the state untouched.
The guard `monitoringData.lastRewardTime && ...` uses JS truthiness, and an
absent `metrics.uptime.client` makes `uptimePercentage` NaN, so the `>= 90`
comparison is false (the `none` branch below). -/
def distributeRewards (s : MonitoringData) (now rewardInterval rewardAmountCfg : ℚ)
    (issuerOk : Bool) : MonitoringData × Option ℚ :=
  if jsTruthy s.lastRewardTime ∧ now - jsVal s.lastRewardTime < rewardInterval then
    (s, none)
  else
    let totalTime : ℚ :=
      if jsTruthy s.lastRewardTime then now - jsVal s.lastRewardTime else now - s.startTime
    match s.metrics.uptime with
    | none => (s, none)
    | some u =>
      let uptimePercentage : ℚ := u.client * 1000 / totalTime * 100
      if 90 ≤ uptimePercentage then
        let rewardMultiplier := uptimePercentage / 100
        let rewardAmount := rewardAmountCfg * rewardMultiplier
        if issuerOk then ({ s with lastRewardTime := some now }, some rewardAmount)
        else (s, some rewardAmount)
      else (s, none)

/-! ### Persistence (monitor.js lines 341-399) -/

/-- The persisted record layout written by `persistData` (monitor.js lines 384-390).
A hand-edited or older file may miss keys, so every field is optional; an outer
`none` means the key is absent (the object spread then keeps the in-memory
value), while `lastRewardTime = some none` is an explicit JSON `null`. -/
structure PersistedData where
  startTime : Option ℚ
  lastRewardTime : Option (Option ℚ)
  history : Option (List HistoryPoint)
  monitoringTasks : Option (List Task)
deriving DecidableEq, Repr

/-- The record `persistData` writes to disk (monitor.js lines 381-399); the
current metrics are deliberately excluded. -/
def persistData (s : MonitoringData) : PersistedData :=
  { startTime := some s.startTime, lastRewardTime := some s.lastRewardTime,
    history := some s.history, monitoringTasks := some s.monitoringTasks }

/-- The `loadPersistedData` routine (monitor.js lines 341-378).  `file` is the
stored file's content: `none` when the file does not exist, `.error` when
parsing throws (swallowed by the catch), otherwise the parsed record, merged by
object spread; `startTime` is always `min(currentStartTime, data.startTime ||
currentStartTime)` with JS truthiness for the `||`. -/
def loadPersistedData (s : MonitoringData) (file : Option (Except String PersistedData)) :
    MonitoringData :=
  match file with
  | none => s
  | some (.error _) => s
  | some (.ok d) =>
    { s with
      startTime := min s.startTime (match d.startTime with
        | some t => if t ≠ 0 then t else s.startTime
        | none => s.startTime),
      lastRewardTime := match d.lastRewardTime with
        | some v => v
        | none => s.lastRewardTime,
      history := d.history.getD s.history,
      monitoringTasks := d.monitoringTasks.getD s.monitoringTasks }

/-! ### Query surface (monitor.js lines 632-664) -/

/-- Shape of the `getMetrics` reply (monitor.js lines 643-663). -/
structure MetricsReport where
  current : Metrics
  history : List HistoryPoint
  uptimeSince : ℚ
  uptimeLastReward : Option ℚ
  tasks : List TaskSummary
  statusErrors : ℕ
  statusLastError : Option ErrorInfo
  statusHealthy : Bool
deriving DecidableEq, Repr

/-- The guard `!monitoringData.metrics.cpu.usage` (monitor.js line 634): true when
`metrics.cpu` is still `{}` (usage `undefined`) or when the stored usage is `0`
(both falsy in JS). -/
def cpuUsageMissing (s : MonitoringData) : Bool :=
  match s.metrics.cpu with
  | none => true
  | some c => decide (c.usage = 0)

/-- Builds the reply object of `getMetrics` from the (possibly updated) state. -/
def metricsReport (s : MonitoringData) : MetricsReport :=
  { current := s.metrics, history := s.history, uptimeSince := s.startTime,
    uptimeLastReward := s.lastRewardTime,
    tasks := s.monitoringTasks.map taskSummary,
    statusErrors := s.errorsCount, statusLastError := s.errorsLastError,
    statusHealthy := decide (s.errorsCount < 3) }

/-- The `getMetrics` routine (monitor.js lines 632-664).  When the stored cpu
usage is falsy it runs a full collect+process cycle first (`collectRes` is that
collection's outcome and `connected` the websocket state seen by
`processMetrics`); a collection failure is caught and logged, leaving the state
unchanged.  Returns the new state, whether a metrics message was transmitted,
and the reply. -/
def getMetrics (s : MonitoringData) (collectRes : Except String Metrics)
    (connected : Bool) : MonitoringData × Bool × MetricsReport :=
  let out :=
    if cpuUsageMissing s then
      match collectRes with
      | .ok m => processMetrics s m connected
      | .error _ => (s, false)
    else (s, false)
  (out.1, out.2, metricsReport out.1)

/-! ### Task management (monitor.js lines 256-338)

`cron.schedule` handles are never stored by `scheduleMonitoringTask`
(monitor.js lines 299-324), so the agent state tracks, next to `monitoringData`,
the list of tasks that have an active cron job. -/

/-- Monitoring data plus the cron jobs registered for tasks.  A task appears in
`cronTasks` once `scheduleMonitoringTask` has been called for it; nothing in the
source ever cancels such a job. -/
structure AgentState where
  data : MonitoringData
  cronTasks : List Task
deriving DecidableEq, Repr

/-- The `scheduleMonitoringTask` routine (monitor.js lines 281-325): registers a
recurring cron job for the task; the returned schedule handle is discarded. -/
def scheduleMonitoringTask (a : AgentState) (t : Task) : AgentState :=
  { a with cronTasks := a.cronTasks ++ [t] }

/-- The `addMonitoringTask` routine (monitor.js lines 257-278).  `genId` and
`genName` stand for the generated defaults used when the incoming task has an
empty (falsy) `id`/`name`. -/
def addMonitoringTask (a : AgentState) (t : Task) (genId genName : String) :
    AgentState × String :=
  let t1 := if t.id = "" then { t with id := genId } else t
  let t2 := if t1.name = "" then { t1 with name := genName } else t1
  let a1 := { a with data := { a.data with monitoringTasks := a.data.monitoringTasks ++ [t2] } }
  (scheduleMonitoringTask a1 t2, t2.id)

/-- The `removeMonitoringTask` routine (monitor.js lines 328-338): `findIndex`
followed by `splice(index, 1)`.  The task's cron job is left untouched. -/
def removeMonitoringTask (a : AgentState) (taskId : String) : AgentState × Bool :=
  match List.findIdx? (fun t => t.id == taskId) a.data.monitoringTasks with
  | some i =>
    ({ a with data := { a.data with
        monitoringTasks := a.data.monitoringTasks.eraseIdx i } }, true)
  | none => (a, false)

/-- Whether a later tick of some registered cron job still executes the action of
the task with this id (monitor.js lines 299-324: the callback closes over the
task and runs `executeMonitoringTask` unconditionally). -/
def taskStillScheduled (a : AgentState) (taskId : String) : Bool :=
  a.cronTasks.any (fun t => t.id == taskId)

/-! ### Connectivity manager (websocket.js) -/

/-- Which timer `scheduleReconnect` left pending: a backoff retry
(websocket.js lines 177-180) or the 5-minute cooldown retry (lines 185-189). -/
inductive TimerKind where
  | backoff
  | cooldown
deriving DecidableEq, Repr

/-- The module-level connection state of websocket.js (lines 8-15).  The raw
socket handle, ping interval and `connectionStartTime` are not tracked as data;
the grace-window test on `connectionStartTime` appears as the `withinGrace`
parameter of the error handler. -/
structure WSState where
  isConnected : Bool
  reconnectAttempts : ℕ
  reconnectTimer : Option TimerKind
  pendingMessages : List Message
deriving Repr

/-- Configured reconnect base delay, `config.websocket.reconnectInterval`. -/
def wsReconnectInterval : ℚ := 5000

/-- Configured attempt cap, `config.websocket.maxReconnectAttempts`. -/
def wsMaxReconnectAttempts : ℕ := 10

/-- The delay computed by `scheduleReconnect` for the timer it sets
(websocket.js lines 162-190): exponential backoff capped at 30000, plus a
jitter of `r * 0.3 * maxDelay` for the random draw `r`, clamped to 60000;
past the attempt cap, the single cooldown retry is scheduled after 300000. -/
def scheduleReconnectDelay (baseDelay : ℚ) (maxAttempts attempts : ℕ) (r : ℚ) : ℚ :=
  if attempts ≤ maxAttempts then
    let maxDelay := min 30000 (baseDelay * 2 ^ (attempts - 1))
    let jitter := r * (3 / 10) * maxDelay
    min (maxDelay + jitter) 60000
  else 300000

/-- State effect of `scheduleReconnect` (websocket.js lines 157-191): clear any
pending timer, increment `reconnectAttempts`, and set either a backoff timer or,
past the cap, the cooldown timer (whose callback will reset the counter when it
fires). -/
def scheduleReconnect (s : WSState) : WSState :=
  let a := s.reconnectAttempts + 1
  if a ≤ wsMaxReconnectAttempts then
    { s with reconnectAttempts := a, reconnectTimer := some .backoff }
  else
    { s with reconnectAttempts := a, reconnectTimer := some .cooldown }

/-- State effect of `connect` (websocket.js lines 32-62): tear down the old
socket and open a new one.  `openOk` is whether the transport constructor
succeeds; the catch branch falls back to `scheduleReconnect`.  (Connection
results arrive later as open/error/close events.) -/
def wsConnect (s : WSState) (openOk : Bool) : WSState :=
  if openOk then s else scheduleReconnect s

/-- The `send` routine (websocket.js lines 227-264), for an already-built
message.  `transmitOk` is whether the raw `ws.send` call succeeds.  While
disconnected only high-priority messages are queued; on a transmit failure the
message is queued if high-priority and `checkConnection` runs (which, while
`isConnected` is still true, only issues a low-priority ping that is never
queued, so it leaves this state unchanged). -/
def wsSend (s : WSState) (m : Message) (transmitOk : Bool) : WSState × Bool :=
  if !s.isConnected then
    (if m.priority = .high then
       { s with pendingMessages := s.pendingMessages ++ [m] }
     else s, false)
  else if transmitOk then (s, true)
  else
    (if m.priority = .high then
       { s with pendingMessages := s.pendingMessages ++ [m] }
     else s, false)

/-- The pending-message replay loop of `handleOpen` (websocket.js lines 94-109):
messages are sent in order; a message whose raw send fails (`fails i` for the
i-th message overall) is pushed back iff it is high-priority.  Returns the
re-queued messages and the list of messages attempted, both in order. -/
def flushLoop : List Message → (ℕ → Bool) → ℕ → List Message × List Message
  | [], _, _ => ([], [])
  | m :: rest, fails, i =>
    let r := flushLoop rest fails (i + 1)
    (if fails i ∧ m.priority = .high then m :: r.1 else r.1, m :: r.2)

/-- The `handleOpen` routine (websocket.js lines 65-111): mark connected, reset
`reconnectAttempts`, clear the pending reconnect timer, authenticate when a
registered identity exists (`auth` is the high-priority authenticate message,
`authOk` whether its raw send succeeds — on failure `send` queues it), then
flush the pending queue.  Returns the new state and the flushed messages in the
order they were attempted. -/
def handleOpen (s : WSState) (auth : Option Message) (authOk : Bool)
    (fails : ℕ → Bool) : WSState × List Message :=
  let s1 := { s with isConnected := true, reconnectAttempts := 0, reconnectTimer := none }
  let s2 := match auth with
    | some m => (wsSend s1 m authOk).1
    | none => s1
  let r := flushLoop s2.pendingMessages fails 0
  ({ s2 with pendingMessages := r.1 }, r.2)

/-- The `handleError` routine (websocket.js lines 131-138): an error within the
5000-unit grace window of the connection start inflates the attempt counter by
2; it never schedules a reconnect itself. -/
def handleError (s : WSState) (withinGrace : Bool) : WSState :=
  if withinGrace then { s with reconnectAttempts := s.reconnectAttempts + 2 } else s

/-- The `handleClose` routine (websocket.js lines 141-154): mark disconnected,
clear the ping interval, and schedule a reconnect. -/
def handleClose (s : WSState) : WSState :=
  scheduleReconnect { s with isConnected := false }

/-- The `serverShutdown` inbound handler (websocket.js lines 402-410): bias the
backoff upward by raising the attempt counter to at least 5. -/
def serverShutdownHandler (s : WSState) : WSState :=
  { s with reconnectAttempts := max s.reconnectAttempts 5 }

/-- The periodic `checkConnection` routine (websocket.js lines 194-224).  While
disconnected it connects when no reconnect timer is pending; while connected it
sends a ping via `send` — which never throws, so the catch branch that would
force a disconnect is unreachable and the state is unchanged (the low-priority
ping is never queued). -/
def checkConnection (s : WSState) (openOk : Bool) : WSState :=
  if !s.isConnected then
    if s.reconnectTimer = none then wsConnect s openOk else s
  else s

/-- Externally visible events driving the connection state machine: the
transport signals, the two reconnect timers firing (each carrying whether the
ensuing `connect` call's constructor succeeds), the `serverShutdown` inbound
notice, and the minute-period connection check. -/
inductive WSEvent where
  | evOpen (auth : Option Message) (authOk : Bool) (fails : ℕ → Bool)
  | evError (withinGrace : Bool)
  | evClose
  | evBackoffFire (openOk : Bool)
  | evCooldownFire (openOk : Bool)
  | evServerShutdown
  | evCheckConnection (openOk : Bool)

/-- Whether an event is the transport's open signal. -/
def WSEvent.isOpenEvent : WSEvent → Bool
  | .evOpen _ _ _ => true
  | _ => false

/-- Whether an event is the cooldown timer firing. -/
def WSEvent.isCooldownFire : WSEvent → Bool
  | .evCooldownFire _ => true
  | _ => false

/-- One step of the connection state machine, dispatching each event to the
handler websocket.js registers for it.  A timer fire only has an effect when
the corresponding timer is the pending one; the cooldown callback
(websocket.js lines 185-189) resets `reconnectAttempts` to 0 and then calls
`connect`. -/
def wsStep (s : WSState) (e : WSEvent) : WSState :=
  match e with
  | .evOpen auth authOk fails => (handleOpen s auth authOk fails).1
  | .evError g => handleError s g
  | .evClose => handleClose s
  | .evBackoffFire ok =>
    if s.reconnectTimer = some .backoff then wsConnect s ok else s
  | .evCooldownFire ok =>
    if s.reconnectTimer = some .cooldown then
      wsConnect { s with reconnectAttempts := 0 } ok
    else s
  | .evServerShutdown => serverShutdownHandler s
  | .evCheckConnection ok => checkConnection s ok

/-! ### Static call graph of the agent

Used to settle whether any scheduled action or registered handler ever invokes
`distributeRewards`.  One constructor per function of the repository's modules
(index.js, monitor.js, websocket.js, solana.js, user.js), plus one constructor
per registered callback (cron callbacks, route handlers, inbound message
handlers, signal handlers), with `main` the module top level of index.js. -/

/-- Functions and registered callbacks of the uptime client. -/
inductive Fn where
  | main
  | indexInit
  | routeHealth
  | routeMetrics
  | routeStatus
  | statusCronCallback
  | shutdownHandler
  | monitorInit
  | metricsCronCallback
  | persistCronCallback
  | loadPersistedDataFn
  | persistDataFn
  | handleMetricsErrorFn
  | collectMetricsFn
  | processMetricsFn
  | distributeRewardsFn
  | getMetricsFn
  | scheduleMonitoringTasksFn
  | scheduleMonitoringTaskFn
  | taskCronCallback
  | executeMonitoringTaskFn
  | checkHttpEndpointFn
  | checkPingFn
  | checkTcpPortFn
  | checkDnsFn
  | addMonitoringTaskFn
  | removeMonitoringTaskFn
  | wsInit
  | wsConnectFn
  | wsHandleOpen
  | wsHandleMessage
  | wsHandleError
  | wsHandleClose
  | wsScheduleReconnect
  | wsCheckConnection
  | wsSendFn
  | wsSendPing
  | wsAuthenticate
  | wsSendMetrics
  | wsRegisterMessageHandlers
  | wsIsSocketConnected
  | onAuthResponse
  | onPong
  | onRequestMetrics
  | onReward
  | onTask
  | onServerShutdown
  | solanaInit
  | solanaInitializeTokenAccount
  | solanaSendReward
  | solanaSendSolReward
  | solanaSendTokenReward
  | solanaFindAssociatedTokenAddress
  | solanaVerifyTransaction
  | solanaIsConnected
  | userInit
  | userSaveUserData
  | userRegisterUser
  | userUpdateStatus
  | userGetGeolocation
  | userIsRegistered
  | userGetUserData
deriving DecidableEq, Repr

/-- Call edges read off the source.  Registering a callback (with cron,
`setInterval`, `setTimeout`, an express route, a transport event or the inbound
handler table) is counted as a call edge to that callback, so the relation
over-approximates everything the program can ever run. -/
def callsOf : Fn → List Fn
  | .main => [.indexInit, .routeHealth, .routeMetrics, .routeStatus]
  | .indexInit =>
    [.userInit, .solanaInit, .monitorInit, .wsInit, .statusCronCallback,
     .userIsRegistered, .userRegisterUser, .shutdownHandler]
  | .routeHealth => []
  | .routeMetrics => [.getMetricsFn]
  | .routeStatus =>
    [.userIsRegistered, .userGetUserData, .solanaIsConnected, .wsIsSocketConnected]
  | .statusCronCallback => [.userIsRegistered, .userUpdateStatus]
  | .shutdownHandler =>
    [.userIsRegistered, .userGetUserData, .wsIsSocketConnected, .wsSendFn]
  | .monitorInit =>
    [.loadPersistedDataFn, .metricsCronCallback, .scheduleMonitoringTasksFn,
     .collectMetricsFn, .processMetricsFn, .handleMetricsErrorFn,
     .persistCronCallback, .persistDataFn]
  | .metricsCronCallback =>
    [.collectMetricsFn, .processMetricsFn, .persistDataFn, .handleMetricsErrorFn]
  | .persistCronCallback => [.persistDataFn]
  | .loadPersistedDataFn => []
  | .persistDataFn => []
  | .handleMetricsErrorFn => [.wsIsSocketConnected, .wsConnectFn]
  | .collectMetricsFn => []
  | .processMetricsFn => [.wsIsSocketConnected, .wsSendMetrics]
  | .distributeRewardsFn => [.solanaSendReward]
  | .getMetricsFn => [.collectMetricsFn, .processMetricsFn]
  | .scheduleMonitoringTasksFn => [.taskCronCallback]
  | .scheduleMonitoringTaskFn => [.taskCronCallback]
  | .taskCronCallback => [.executeMonitoringTaskFn, .wsSendFn, .persistDataFn]
  | .executeMonitoringTaskFn =>
    [.checkHttpEndpointFn, .checkPingFn, .checkTcpPortFn, .checkDnsFn]
  | .checkHttpEndpointFn => []
  | .checkPingFn => []
  | .checkTcpPortFn => []
  | .checkDnsFn => []
  | .addMonitoringTaskFn => [.scheduleMonitoringTaskFn, .persistDataFn]
  | .removeMonitoringTaskFn => [.persistDataFn]
  | .wsInit => [.wsConnectFn, .wsRegisterMessageHandlers, .wsCheckConnection]
  | .wsConnectFn =>
    [.wsHandleOpen, .wsHandleMessage, .wsHandleError, .wsHandleClose,
     .wsScheduleReconnect]
  | .wsHandleOpen => [.wsSendPing, .userIsRegistered, .userGetUserData, .wsAuthenticate]
  | .wsHandleMessage =>
    [.onAuthResponse, .onPong, .onRequestMetrics, .onReward, .onTask, .onServerShutdown]
  | .wsHandleError => []
  | .wsHandleClose => [.wsScheduleReconnect]
  | .wsScheduleReconnect => [.wsConnectFn]
  | .wsCheckConnection => [.wsConnectFn, .wsSendPing, .wsScheduleReconnect]
  | .wsSendFn => [.wsCheckConnection]
  | .wsSendPing => [.wsSendFn, .userIsRegistered, .userGetUserData]
  | .wsAuthenticate => [.wsSendFn]
  | .wsSendMetrics => [.wsSendFn, .userIsRegistered, .userGetUserData]
  | .wsRegisterMessageHandlers =>
    [.onAuthResponse, .onPong, .onRequestMetrics, .onReward, .onTask, .onServerShutdown]
  | .wsIsSocketConnected => []
  | .onAuthResponse => [.userGetUserData, .userRegisterUser]
  | .onPong => []
  | .onRequestMetrics => [.collectMetricsFn, .wsSendMetrics]
  | .onReward => [.solanaVerifyTransaction]
  | .onTask => [.userGetUserData, .collectMetricsFn, .wsSendFn]
  | .onServerShutdown => []
  | .solanaInit => [.solanaInitializeTokenAccount]
  | .solanaInitializeTokenAccount => []
  | .solanaSendReward => [.solanaSendSolReward, .solanaSendTokenReward]
  | .solanaSendSolReward => []
  | .solanaSendTokenReward => [.solanaFindAssociatedTokenAddress]
  | .solanaFindAssociatedTokenAddress => []
  | .solanaVerifyTransaction => []
  | .solanaIsConnected => []
  | .userInit => []
  | .userSaveUserData => []
  | .userRegisterUser => [.userGetGeolocation, .userSaveUserData]
  | .userUpdateStatus => [.userSaveUserData]
  | .userGetGeolocation => []
  | .userIsRegistered => []
  | .userGetUserData => []

/-- Transitive invocation: `Reaches f g` when running `f` can (directly or
through any chain of calls and callback registrations) run `g`. -/
inductive Reaches : Fn → Fn → Prop where
  | refl (f : Fn) : Reaches f f
  | step {f g : Fn} (h : Fn) : Reaches f g → h ∈ callsOf g → Reaches f h

/-- Every function the agent can run, starting from the index.js module load:
the over-approximating closure of `callsOf` listed explicitly. -/
def reachSet : List Fn :=
  [.main, .indexInit, .routeHealth, .routeMetrics, .routeStatus,
   .statusCronCallback, .shutdownHandler,
   .monitorInit, .metricsCronCallback, .persistCronCallback,
   .loadPersistedDataFn, .persistDataFn, .handleMetricsErrorFn,
   .collectMetricsFn, .processMetricsFn, .getMetricsFn,
   .scheduleMonitoringTasksFn, .scheduleMonitoringTaskFn, .taskCronCallback,
   .executeMonitoringTaskFn, .checkHttpEndpointFn, .checkPingFn,
   .checkTcpPortFn, .checkDnsFn,
   .wsInit, .wsConnectFn, .wsHandleOpen, .wsHandleMessage, .wsHandleError,
   .wsHandleClose, .wsScheduleReconnect, .wsCheckConnection, .wsSendFn,
   .wsSendPing, .wsAuthenticate, .wsSendMetrics, .wsRegisterMessageHandlers,
   .wsIsSocketConnected,
   .onAuthResponse, .onPong, .onRequestMetrics, .onReward, .onTask,
   .onServerShutdown,
   .solanaInit, .solanaInitializeTokenAccount, .solanaVerifyTransaction,
   .solanaIsConnected,
   .userInit, .userSaveUserData, .userRegisterUser, .userUpdateStatus,
   .userGetGeolocation, .userIsRegistered, .userGetUserData]

/-! ### Sample values used to evaluate the definitions at concrete inputs -/

/-- A provider environment in which every provider succeeds. -/
def okEnv : ProviderEnv :=
  { now := 60000, platform := "linux", arch := "x64", hostname := "node1",
    systemUptime := 3600, processUptime := 60,
    cpuLoad := .ok (1 / 4), cpuCores := 4,
    totalMemory := 1000, freeMemory := 250,
    diskInfo := .ok [], networkStats := .ok [] }

/-- The same environment with the cpu provider failing. -/
def cpuFailEnv : ProviderEnv :=
  { okEnv with cpuLoad := .error "cpu provider failure" }

/-- The same environment with the disk collection hitting its 5000-unit timeout
(the `Promise.race` rejection message of monitor.js line 479). -/
def diskTimeoutEnv : ProviderEnv :=
  { okEnv with diskInfo := .error "Disk metrics collection timeout" }

/-- A snapshot as collected in `okEnv` from a fresh boot at time 0. -/
def sampleSnapshot : Metrics :=
  { timestamp := 60000,
    system := some { platform := "linux", arch := "x64", hostname := "node1", uptime := 3600 },
    cpu := some { usage := 25, cores := 4 },
    memory := some { total := 1000, free := 250, used := 750, usagePercentage := 75 },
    disk := .readings [], network := .readings [],
    uptime := some { system := 3600, proc := 60, client := 60 },
    tasks := none }

/-- A state whose stored cpu usage is the recorded value 0 (falsy in JS). -/
def zeroCpuState : MonitoringData :=
  { initialMonitoringData 0 with
    metrics := { emptyMetrics with cpu := some { usage := 0, cores := 4 } } }

/-- A state ready for a reward evaluation: booted at time 0, no reward yet,
client uptime 95 seconds accumulated over a 100000-unit window. -/
def rewardReadyState : MonitoringData :=
  { initialMonitoringData 0 with
    metrics := { emptyMetrics with
      uptime := some { system := 3600, proc := 60, client := 95 } } }

/-- A sample http monitoring task. -/
def sampleTask : Task :=
  { id := "t1", name := "http_check", taskType := "http",
    target := "https://example.com", interval := .ms 120000,
    lastRunTime := none, lastResult := none }

/-- The agent state after `addMonitoringTask` registered `sampleTask`. -/
def agentWithTask : AgentState :=
  (addMonitoringTask { data := initialMonitoringData 0, cronTasks := [] }
    sampleTask "gen_id" "gen_name").1

/-- A sample high-priority message and a normal one. -/
def highMsg : Message :=
  { msgType := "taskResult", payload := "r1", timestamp := 10, priority := .high }

/-- A sample normal-priority message. -/
def normalMsg : Message :=
  { msgType := "metrics", payload := "m1", timestamp := 11, priority := .normal }

/-- A disconnected websocket state with one queued high-priority message. -/
def wsDisconnected : WSState :=
  { isConnected := false, reconnectAttempts := 3, reconnectTimer := some .backoff,
    pendingMessages := [highMsg] }

/-- A history point with no readings. -/
def samplePoint : HistoryPoint :=
  { timestamp := 0, cpu := none, memory := none, uptime := none }

/-- A state whose history is at full capacity (100 points). -/
def hundredHistoryState : MonitoringData :=
  { initialMonitoringData 0 with history := List.replicate 100 samplePoint }

/-- A persisted record carrying an earlier start time. -/
def samplePersisted : PersistedData :=
  { startTime := some 5, lastRewardTime := none, history := none,
    monitoringTasks := none }

/-- A state with a nonzero stored cpu usage (the guard of `getMetrics` is falsy). -/
def warmCpuState : MonitoringData :=
  { initialMonitoringData 0 with
    metrics := { emptyMetrics with cpu := some { usage := 25, cores := 4 } } }

/-! ## Theorems -/

/-- Every function reachable from the index.js module load lies in `reachSet`. -/
theorem reaches_mem_reachSet (f : Fn) (hf : Reaches .main f) : f ∈ reachSet := by
  have hclosed : ∀ g ∈ reachSet, ∀ k ∈ callsOf g, k ∈ reachSet := by decide
  induction hf with
  | refl => decide
  | step k _ hmem ih => exact hclosed _ ih k hmem

/-- C1: the spec says a recurring scheduled action or registered handler set up
during initialization invokes `distributeRewards`.  In the source nothing ever
does: no function reachable from the agent's entry point is
`distributeRewards`, and none of them even has a call edge to it (the function
is dead code and is not exported from the monitor module). -/
theorem distributeRewards_never_invoked (f : Fn) (hf : Reaches .main f) :
    f ≠ .distributeRewardsFn ∧ Fn.distributeRewardsFn ∉ callsOf f := by
  have hmem := reaches_mem_reachSet f hf
  have hnot : ∀ g ∈ reachSet, g ≠ Fn.distributeRewardsFn ∧
      Fn.distributeRewardsFn ∉ callsOf g := by decide
  exact hnot f hmem

/-- Witness: the entry point itself neither is `distributeRewards` nor calls it. -/
theorem distributeRewards_never_invoked_witness :
    Fn.main ≠ Fn.distributeRewardsFn ∧ Fn.distributeRewardsFn ∉ callsOf Fn.main :=
  distributeRewards_never_invoked .main (.refl _)

/-- Helper: the push-then-evict step on a bounded list keeps the bound, and at
full capacity drops exactly the head while appending the new element. -/
theorem pushEvict_spec (l : List HistoryPoint) (p : HistoryPoint)
    (h : l.length ≤ 100) :
    (if (l ++ [p]).length > 100 then (l ++ [p]).tail else l ++ [p]).length ≤ 100
  ∧ (l.length = 100 →
      (if (l ++ [p]).length > 100 then (l ++ [p]).tail else l ++ [p]) = l.tail ++ [p]
      ∧ (if (l ++ [p]).length > 100 then (l ++ [p]).tail else l ++ [p]).head?
          = l.get? 1) := by
  by_cases hl : l.length = 100
  · obtain ⟨a, t, rfl⟩ : ∃ a t, l = a :: t := by
      cases l with
      | nil => simp at hl
      | cons a t => exact ⟨a, t, rfl⟩
    have ht : t.length = 99 := by simpa using hl
    have hcond : ((a :: t) ++ [p]).length > 100 := by simp [ht]
    rw [if_pos hcond]
    have htail : ((a :: t) ++ [p]).tail = t ++ [p] := rfl
    rw [htail]
    refine ⟨by simp [ht], fun _ => ⟨rfl, ?_⟩⟩
    cases t with
    | nil => simp at ht
    | cons b t2 => rfl
  · have hlt : l.length < 100 := lt_of_le_of_ne h hl
    have hcond : ¬ (l ++ [p]).length > 100 := by simp; omega
    rw [if_neg hcond]
    exact ⟨by simp; omega, fun hc => absurd hc hl⟩

/-- C4: after every `processMetrics` run the history holds at most 100 points,
and when it already held exactly 100 the new point is appended while the oldest
(first) point is evicted, preserving the order of the rest, so the first
element becomes the previous second element. -/
theorem processMetrics_history_bounded_fifo (s : MonitoringData) (m : Metrics)
    (connected : Bool) (h : s.history.length ≤ 100) :
    (processMetrics s m connected).1.history.length ≤ 100
  ∧ (s.history.length = 100 →
      (processMetrics s m connected).1.history = s.history.tail ++ [historyPoint m]
      ∧ (processMetrics s m connected).1.history.head? = s.history.get? 1) := by
  have key := pushEvict_spec s.history (historyPoint m) h
  have hist_eq : (processMetrics s m connected).1.history =
      (if (s.history ++ [historyPoint m]).length > 100 then (s.history ++ [historyPoint m]).tail
       else s.history ++ [historyPoint m]) := rfl
  exact ⟨by rw [hist_eq]; exact key.1,
    fun hl => ⟨by rw [hist_eq]; exact (key.2 hl).1, by rw [hist_eq]; exact (key.2 hl).2⟩⟩

/-- Witness for C4 at a history of exactly 100 points. -/
theorem processMetrics_history_bounded_fifo_witness :
    hundredHistoryState.history.length ≤ 100
    ∧ (processMetrics hundredHistoryState sampleSnapshot true).1.history.length ≤ 100
    ∧ (processMetrics hundredHistoryState sampleSnapshot true).1.history =
        hundredHistoryState.history.tail ++ [historyPoint sampleSnapshot] :=
  ⟨by simp [hundredHistoryState, initialMonitoringData],
   (processMetrics_history_bounded_fifo hundredHistoryState sampleSnapshot true
      (by simp [hundredHistoryState, initialMonitoringData])).1,
   ((processMetrics_history_bounded_fifo hundredHistoryState sampleSnapshot true
      (by simp [hundredHistoryState, initialMonitoringData])).2
      (by simp [hundredHistoryState, initialMonitoringData])).1⟩

/-- C9: loading a persisted record with a (positive) `startTime = T_old` into a
state booted at `T_new` yields the effective start time `min T_old T_new`; in
particular an earlier persisted start time is kept, so `startTime` never
increases across restarts. -/
theorem loadPersistedData_startTime_min (s : MonitoringData) (d : PersistedData)
    (told : ℚ) (hst : d.startTime = some told) (hpos : 0 < told) :
    (loadPersistedData s (some (.ok d))).startTime = min told s.startTime
  ∧ (told < s.startTime → (loadPersistedData s (some (.ok d))).startTime = told) := by
  have hne : told ≠ 0 := ne_of_gt hpos
  constructor
  · simp [loadPersistedData, hst, hne, min_comm]
  · intro hlt
    simp [loadPersistedData, hst, hne, min_eq_right hlt.le]

/-- Witness for C9: a persisted start time 5 loaded at boot time 10 stays 5. -/
theorem loadPersistedData_startTime_min_witness :
    samplePersisted.startTime = some 5 ∧ (0 : ℚ) < 5
    ∧ (loadPersistedData (initialMonitoringData 10) (some (.ok samplePersisted))).startTime = 5 :=
  ⟨rfl, by norm_num,
   (loadPersistedData_startTime_min (initialMonitoringData 10) samplePersisted 5 rfl
      (by norm_num)).2 (by norm_num [initialMonitoringData])⟩

/-- C5 counterexample: once the attempt counter passes the cap, the scheduled
reconnect delay is the 5-minute cooldown (300000), which exceeds the claimed
absolute ceiling of 60000; at attempt 11 with the shipped configuration the
claim's bound fails. -/
theorem cooldown_retry_delay_exceeds_ceiling :
    scheduleReconnectDelay wsReconnectInterval wsMaxReconnectAttempts 11 0 = 300000
    ∧ ¬ scheduleReconnectDelay wsReconnectInterval wsMaxReconnectAttempts 11 0 ≤ 60000 := by
  constructor <;>
    norm_num [scheduleReconnectDelay, wsReconnectInterval, wsMaxReconnectAttempts]

/-- C5 (amended): for every attempt `n ≤ maxAttempts` before the 30000 cap
binds, the scheduled delay lies in `[base*2^(n-1), base*2^(n-1)*1.3]`; for
every attempt `n ≤ maxAttempts` the delay never exceeds 60000; past the cap the
single cooldown retry is scheduled after 300000. -/
theorem scheduleReconnectDelay_bounds (baseDelay : ℚ) (maxAttempts n : ℕ) (r : ℚ)
    (hbase : 0 < baseDelay) (hr0 : 0 ≤ r) (hr1 : r < 1) :
    (n ≤ maxAttempts → baseDelay * 2 ^ (n - 1) ≤ 30000 →
      baseDelay * 2 ^ (n - 1) ≤ scheduleReconnectDelay baseDelay maxAttempts n r
      ∧ scheduleReconnectDelay baseDelay maxAttempts n r ≤ baseDelay * 2 ^ (n - 1) * (13 / 10))
  ∧ (n ≤ maxAttempts → scheduleReconnectDelay baseDelay maxAttempts n r ≤ 60000)
  ∧ (maxAttempts < n → scheduleReconnectDelay baseDelay maxAttempts n r = 300000) := by
  have hD : (0 : ℚ) < baseDelay * 2 ^ (n - 1) := by positivity
  refine ⟨?_, ?_, ?_⟩
  · intro hle hcap
    unfold scheduleReconnectDelay
    rw [if_pos hle]
    have hmin : min (30000 : ℚ) (baseDelay * 2 ^ (n - 1)) = baseDelay * 2 ^ (n - 1) :=
      min_eq_right hcap
    rw [hmin]
    set D := baseDelay * 2 ^ (n - 1) with hDdef
    have hj0 : 0 ≤ r * (3 / 10) * D := by positivity
    have hj1 : r * (3 / 10) * D ≤ 3 / 10 * D := by
      rw [mul_assoc]
      exact mul_le_of_le_one_left (by positivity) hr1.le
    constructor
    · exact le_min (by linarith) (by linarith)
    · calc min (D + r * (3 / 10) * D) 60000 ≤ D + r * (3 / 10) * D := min_le_left _ _
        _ ≤ D * (13 / 10) := by linarith
  · intro hle
    unfold scheduleReconnectDelay
    rw [if_pos hle]
    exact min_le_right _ _
  · intro hgt
    unfold scheduleReconnectDelay
    rw [if_neg (not_le.mpr hgt)]

/-- Witness for C5 (amended) at the shipped base delay, attempt 2, jitter draw 1/2. -/
theorem scheduleReconnectDelay_bounds_witness :
    (0 : ℚ) < 5000 ∧ (0 : ℚ) ≤ 1 / 2 ∧ (1 : ℚ) / 2 < 1
    ∧ ((5000 : ℚ) * 2 ^ (2 - 1) ≤ scheduleReconnectDelay 5000 10 2 (1 / 2)
        ∧ scheduleReconnectDelay 5000 10 2 (1 / 2) ≤ 5000 * 2 ^ (2 - 1) * (13 / 10))
    ∧ scheduleReconnectDelay 5000 10 2 (1 / 2) ≤ 60000 :=
  ⟨by norm_num, by norm_num, by norm_num,
   (scheduleReconnectDelay_bounds 5000 10 2 (1 / 2) (by norm_num) (by norm_num)
      (by norm_num)).1 (by norm_num) (by norm_num),
   (scheduleReconnectDelay_bounds 5000 10 2 (1 / 2) (by norm_num) (by norm_num)
      (by norm_num)).2.1 (by norm_num)⟩

/-- C2: in a `distributeRewards` run at time `now` the reward issuer is invoked
iff the computed uptime percentage is at least 90 and the gate is open
(`lastRewardTime` null, or `now - lastRewardTime ≥ rewardInterval`); the issued
amount equals `baseAmount * (uptimePct / 100)`; on issuer success
`lastRewardTime` becomes `now`; on issuer failure, or when no reward is issued,
`lastRewardTime` is unchanged.  Hypotheses: a stored `lastRewardTime` is a
positive instant, the boot time precedes `now`, and the reward interval is
positive (all true of every reachable state and configuration). -/
theorem distributeRewards_gate_and_amount (s : MonitoringData)
    (now rewardInterval baseAmount : ℚ) (issuerOk : Bool) (u : UptimeReading)
    (hu : s.metrics.uptime = some u)
    (hlast : s.lastRewardTime = none ∨ ∃ t, 0 < t ∧ s.lastRewardTime = some t)
    (hint : 0 < rewardInterval) (hstart : s.startTime < now) :
    ((distributeRewards s now rewardInterval baseAmount issuerOk).2.isSome ↔
      (90 ≤ u.client * 1000 / (match s.lastRewardTime with
          | some t => now - t
          | none => now - s.startTime) * 100
        ∧ (s.lastRewardTime = none ∨
            ∃ t, s.lastRewardTime = some t ∧ rewardInterval ≤ now - t)))
  ∧ (∀ a, (distributeRewards s now rewardInterval baseAmount issuerOk).2 = some a →
      a = baseAmount * (u.client * 1000 / (match s.lastRewardTime with
          | some t => now - t
          | none => now - s.startTime) * 100 / 100))
  ∧ ((distributeRewards s now rewardInterval baseAmount issuerOk).2.isSome →
      issuerOk = true →
      (distributeRewards s now rewardInterval baseAmount issuerOk).1.lastRewardTime
        = some now)
  ∧ ((distributeRewards s now rewardInterval baseAmount issuerOk).2 = none
        ∨ issuerOk = false →
      (distributeRewards s now rewardInterval baseAmount issuerOk).1.lastRewardTime
        = s.lastRewardTime) := by
  rcases hlast with hnone | ⟨t, ht, hsome⟩
  · unfold distributeRewards
    rw [hnone, hu]
    simp only [jsTruthy, jsVal, Option.getD_none]
    by_cases h90 : (90 : ℚ) ≤ u.client * 1000 / (now - s.startTime) * 100
    · cases issuerOk <;> simp [h90, hnone]
    · simp [h90, hnone]
  · unfold distributeRewards
    rw [hsome, hu]
    simp only [jsTruthy, jsVal, Option.getD_some]
    have htne : decide (t ≠ 0) = true := by simp [ht.ne']
    rw [htne]
    simp only [eq_self_iff_true, if_true, true_and]
    by_cases hearly : now - t < rewardInterval
    · rw [if_pos hearly]
      refine ⟨?_, by simp, by simp, fun _ => hsome.symm ▸ rfl⟩
      simp only [Option.isSome_none, Bool.false_eq_true, false_iff]
      rintro ⟨-, hc | ⟨t2, ht2, hge⟩⟩
      · exact Option.noConfusion hc
      · rw [Option.some.injEq] at ht2
        subst ht2
        linarith
    · rw [if_neg hearly]
      have hge : rewardInterval ≤ now - t := not_lt.mp hearly
      by_cases h90 : (90 : ℚ) ≤ u.client * 1000 / (now - t) * 100
      · rw [if_pos h90]
        cases issuerOk <;> simp [h90, hge, hsome]
      · rw [if_neg h90]
        simp [h90, hsome]

/-- Witness for C2: a fresh node (no previous reward) with 95 seconds of client
uptime over a 100000-unit window gets a reward attempt, and on issuer success
the gate timestamp becomes `now`. -/
theorem distributeRewards_gate_and_amount_witness :
    rewardReadyState.metrics.uptime = some { system := 3600, proc := 60, client := 95 }
    ∧ (rewardReadyState.lastRewardTime = none
        ∨ ∃ t, 0 < t ∧ rewardReadyState.lastRewardTime = some t)
    ∧ (0 : ℚ) < 86400000 ∧ rewardReadyState.startTime < 100000
    ∧ (distributeRewards rewardReadyState 100000 86400000 (1 / 10) true).2.isSome = true
    ∧ (distributeRewards rewardReadyState 100000 86400000 (1 / 10) true).1.lastRewardTime
        = some 100000 := by
  have h := distributeRewards_gate_and_amount rewardReadyState 100000 86400000 (1 / 10)
    true { system := 3600, proc := 60, client := 95 } rfl (Or.inl rfl) (by norm_num)
    (by norm_num [rewardReadyState, initialMonitoringData])
  have hpct : (distributeRewards rewardReadyState 100000 86400000 (1 / 10) true).2.isSome
      = true := by
    refine h.1.mpr ⟨?_, Or.inl rfl⟩
    norm_num [rewardReadyState, initialMonitoringData]
  exact ⟨rfl, Or.inl rfl, by norm_num,
    by norm_num [rewardReadyState, initialMonitoringData], hpct, h.2.2.1 hpct rfl⟩

/-- Helper: the flush loop attempts exactly the queued messages, in order. -/
theorem flushLoop_attempts (l : List Message) (fails : ℕ → Bool) (i : ℕ) :
    (flushLoop l fails i).2 = l := by
  induction l generalizing i with
  | nil => rfl
  | cons m rest ih => simp [flushLoop, ih]

/-- Helper: the flush loop re-queues exactly the high-priority messages whose
send failed, in their original order. -/
theorem flushLoop_requeued (l : List Message) (fails : ℕ → Bool) (i : ℕ) :
    (flushLoop l fails i).1 =
      ((l.enumFrom i).filter
        (fun p => fails p.1 && decide (p.2.priority = .high))).map Prod.snd := by
  induction l generalizing i with
  | nil => rfl
  | cons m rest ih =>
    simp only [flushLoop, List.enumFrom, List.filter_cons]
    by_cases hf : fails i
    · by_cases hp : m.priority = .high
      · simp [hf, hp, ih (i + 1)]
      · simp [hf, hp, ih (i + 1)]
    · simp [hf, ih (i + 1)]

/-- C3: while the connection is not open, `send` appends the message to the
pending queue iff its priority is high (and reports failure); at the next
successful open the pending messages are all flushed in original submission
order (FIFO), followed only by a failed authenticate message, and a flushed
message is re-queued iff its raw send fails and its priority is high. -/
theorem wsSend_queue_and_flush_order (s : WSState) (m : Message) (transmitOk : Bool)
    (auth : Option Message) (authOk : Bool) (fails : ℕ → Bool)
    (h : s.isConnected = false) :
    ((wsSend s m transmitOk).1.pendingMessages =
       if m.priority = .high then s.pendingMessages ++ [m] else s.pendingMessages)
  ∧ ((wsSend s m transmitOk).2 = false)
  ∧ ((handleOpen (wsSend s m transmitOk).1 auth authOk fails).2 =
       (wsSend s m transmitOk).1.pendingMessages ++
         (match auth with
          | some a => if authOk = false ∧ a.priority = .high then [a] else []
          | none => []))
  ∧ ((handleOpen (wsSend s m transmitOk).1 auth authOk fails).1.pendingMessages =
       (((handleOpen (wsSend s m transmitOk).1 auth authOk fails).2).enum.filter
          (fun p => fails p.1 && decide (p.2.priority = .high))).map Prod.snd) := by
  have hq : (wsSend s m transmitOk).1.pendingMessages =
      if m.priority = .high then s.pendingMessages ++ [m] else s.pendingMessages := by
    unfold wsSend
    rw [h]
    by_cases hp : m.priority = .high <;> simp [hp]
  have hflag : (wsSend s m transmitOk).2 = false := by
    unfold wsSend
    rw [h]
    by_cases hp : m.priority = .high <;> simp [hp]
  have hattempts : ∀ (s2 : WSState),
      (handleOpen s2 auth authOk fails).2 =
        s2.pendingMessages ++
          (match auth with
           | some a => if authOk = false ∧ a.priority = .high then [a] else []
           | none => []) := by
    intro s2
    unfold handleOpen wsSend
    cases auth with
    | none => simp [flushLoop_attempts]
    | some a =>
      cases authOk with
      | true => simp [flushLoop_attempts]
      | false =>
        by_cases hp : a.priority = .high <;> simp [hp, flushLoop_attempts]
  have hrequeue : ∀ (s2 : WSState),
      (handleOpen s2 auth authOk fails).1.pendingMessages =
        (((handleOpen s2 auth authOk fails).2).enum.filter
          (fun p => fails p.1 && decide (p.2.priority = .high))).map Prod.snd := by
    intro s2
    unfold handleOpen
    simp only [List.enum]
    rw [flushLoop_attempts, flushLoop_requeued]
  exact ⟨hq, hflag, hattempts _, hrequeue _⟩

/-- Witness for C3: a dropped normal message while disconnected, then a flush of
the queued high-priority message in which every send succeeds. -/
theorem wsSend_queue_and_flush_order_witness :
    wsDisconnected.isConnected = false
    ∧ (wsSend wsDisconnected normalMsg true).1.pendingMessages = [highMsg]
    ∧ (wsSend wsDisconnected normalMsg true).2 = false
    ∧ (handleOpen (wsSend wsDisconnected normalMsg true).1 none true
        (fun _ => false)).2 = [highMsg]
    ∧ (handleOpen (wsSend wsDisconnected normalMsg true).1 none true
        (fun _ => false)).1.pendingMessages = [] := by
  have h := wsSend_queue_and_flush_order wsDisconnected normalMsg true none true
    (fun _ => false) rfl
  refine ⟨rfl, ?_, h.2.1, ?_, ?_⟩
  · rw [h.1]; rfl
  · rw [h.2.2.1, h.1]; rfl
  · rw [h.2.2.2, h.2.2.1, h.1]; rfl

/-- C6: across every event of the connection state machine the attempt counter
never decreases, except at a successful open (which resets it to 0) and at the
post-cap cooldown retry firing (which resets it to 0); no other transition
decreases it. -/
theorem reconnectAttempts_monotone (s : WSState) (e : WSEvent) :
    (e.isOpenEvent = false → e.isCooldownFire = false →
      s.reconnectAttempts ≤ (wsStep s e).reconnectAttempts)
  ∧ (e.isOpenEvent = true → (wsStep s e).reconnectAttempts = 0)
  ∧ (∀ ok, e = .evCooldownFire ok → ok = true → s.reconnectTimer = some .cooldown →
      (wsStep s e).reconnectAttempts = 0) := by
  refine ⟨?_, ?_, ?_⟩
  · intro hopen hcool
    cases e with
    | evOpen auth authOk fails => simp [WSEvent.isOpenEvent] at hopen
    | evError g =>
      cases g <;> simp [wsStep, handleError]
    | evClose =>
      simp only [wsStep, handleClose, scheduleReconnect]
      split_ifs <;> simp
    | evBackoffFire ok =>
      simp only [wsStep, wsConnect, scheduleReconnect]
      split_ifs <;> simp
    | evCooldownFire ok => simp [WSEvent.isCooldownFire] at hcool
    | evServerShutdown =>
      simp only [wsStep, serverShutdownHandler]
      exact le_max_left _ _
    | evCheckConnection ok =>
      simp only [wsStep, checkConnection, wsConnect, scheduleReconnect]
      split_ifs <;> simp
  · intro hopen
    cases e with
    | evOpen auth authOk fails =>
      simp only [wsStep, handleOpen]
      cases auth with
      | none => rfl
      | some a =>
        simp only [wsSend]
        split_ifs <;> rfl
    | evError g => simp [WSEvent.isOpenEvent] at hopen
    | evClose => simp [WSEvent.isOpenEvent] at hopen
    | evBackoffFire ok => simp [WSEvent.isOpenEvent] at hopen
    | evCooldownFire ok => simp [WSEvent.isOpenEvent] at hopen
    | evServerShutdown => simp [WSEvent.isOpenEvent] at hopen
    | evCheckConnection ok => simp [WSEvent.isOpenEvent] at hopen
  · rintro ok rfl rfl htimer
    simp [wsStep, htimer, wsConnect]

/-- Witness for C6: a close event does not decrease the counter, and the
cooldown retry firing resets it to 0. -/
theorem reconnectAttempts_monotone_witness :
    wsDisconnected.reconnectAttempts ≤ (wsStep wsDisconnected .evClose).reconnectAttempts
    ∧ (wsStep { wsDisconnected with reconnectTimer := some .cooldown }
        (.evCooldownFire true)).reconnectAttempts = 0 :=
  ⟨(reconnectAttempts_monotone wsDisconnected .evClose).1 rfl rfl,
   (reconnectAttempts_monotone { wsDisconnected with reconnectTimer := some .cooldown }
      (.evCooldownFire true)).2.2 true rfl rfl rfl⟩

/-- C7 counterexample: the cpu domain is not timeout-wrapped or caught
per-domain — a cpu provider failure rejects the whole collection (no snapshot,
no per-domain marker) and the scheduled tick then increments
`errorCounter.count`, contradicting the claim for the cpu domain. -/
theorem cpu_failure_aborts_collection :
    collectMetrics defaultMetricsConfig cpuFailEnv (initialMonitoringData 0)
      = .error "cpu provider failure"
    ∧ (metricsTick (initialMonitoringData 0) (.error "cpu provider failure") 60000
        true).1.errorsCount = (initialMonitoringData 0).errorsCount + 1 := by
  exact ⟨rfl, rfl⟩

/-- C7 (amended): the disk (and network) domains are independently guarded by
the 5000-unit timeout: when the cpu provider succeeds and the disk collection
fails or times out, the collection still returns a snapshot with valid cpu and
memory readings and a disk error marker, and the scheduled tick leaves the
error counter at 0 (not incremented). -/
theorem disk_failure_isolated (env : ProviderEnv) (s : MonitoringData) (v : ℚ)
    (e : String) (now : ℚ) (connected : Bool)
    (hcpu : env.cpuLoad = .ok v) (hdisk : env.diskInfo = .error e) :
    ∃ m, collectMetrics defaultMetricsConfig env s = .ok m
      ∧ m.cpu = some { usage := v * 100, cores := env.cpuCores }
      ∧ m.memory = some { total := env.totalMemory, free := env.freeMemory,
                          used := env.totalMemory - env.freeMemory,
                          usagePercentage := (env.totalMemory - env.freeMemory) /
                            env.totalMemory * 100 }
      ∧ m.disk = .errMarker e
      ∧ (metricsTick s (.ok m) now connected).1.errorsCount = 0
      ∧ (metricsTick s (.ok m) now connected).1.errorsCount ≤ s.errorsCount := by
  have hcollect : collectMetrics defaultMetricsConfig env s =
      .ok { timestamp := env.now,
            system := some { platform := env.platform, arch := env.arch,
                             hostname := env.hostname, uptime := env.systemUptime },
            cpu := some { usage := v * 100, cores := env.cpuCores },
            memory := some { total := env.totalMemory, free := env.freeMemory,
                             used := env.totalMemory - env.freeMemory,
                             usagePercentage := (env.totalMemory - env.freeMemory) /
                               env.totalMemory * 100 },
            disk := .errMarker e,
            network := (match env.networkStats with
              | .ok l => .readings l
              | .error e2 => .errMarker e2),
            uptime := some { system := env.systemUptime, proc := env.processUptime,
                             client := (env.now - s.startTime) / 1000 },
            tasks := (if s.monitoringTasks.length > 0 then
              some (s.monitoringTasks.map taskSummary) else none) } := by
    unfold collectMetrics
    rw [hcpu, hdisk]
    rfl
  have htick : ∀ (m2 : Metrics), (metricsTick s (.ok m2) now connected).1.errorsCount = 0 := by
    intro m2
    simp only [metricsTick]
    split_ifs with hpos
    · rfl
    · simp only [processMetrics] at hpos ⊢
      omega
  refine ⟨_, hcollect, rfl, rfl, rfl, htick _, ?_⟩
  rw [htick _]
  exact Nat.zero_le _

/-- Witness for C7 (amended) at the concrete disk-timeout environment. -/
theorem disk_failure_isolated_witness :
    diskTimeoutEnv.cpuLoad = .ok (1 / 4)
    ∧ diskTimeoutEnv.diskInfo = .error "Disk metrics collection timeout"
    ∧ ∃ m, collectMetrics defaultMetricsConfig diskTimeoutEnv (initialMonitoringData 0)
          = .ok m
        ∧ m.cpu = some { usage := 1 / 4 * 100, cores := diskTimeoutEnv.cpuCores }
        ∧ m.disk = .errMarker "Disk metrics collection timeout"
        ∧ (metricsTick (initialMonitoringData 0) (.ok m) 60000 true).1.errorsCount = 0 := by
  refine ⟨rfl, rfl, ?_⟩
  obtain ⟨m, h1, h2, h3, h4, h5, h6⟩ := disk_failure_isolated diskTimeoutEnv
    (initialMonitoringData 0) (1 / 4) "Disk metrics collection timeout" 60000 true rfl rfl
  exact ⟨m, h1, h2, h4, h5⟩

/-- Helper: a successful `findIdx?` splits the list at the first hit, and
`eraseIdx` at that index drops exactly that element. -/
theorem findIdx_erase_split {α : Type} (p : α → Bool) (l : List α) (i : ℕ)
    (h : List.findIdx? p l = some i) :
    ∃ l1 x l2, l = l1 ++ x :: l2 ∧ p x = true ∧ (∀ y ∈ l1, p y = false)
      ∧ l.eraseIdx i = l1 ++ l2 := by
  induction l generalizing i with
  | nil => simp at h
  | cons a t ih =>
    rw [List.findIdx?_cons] at h
    by_cases hp : p a
    · rw [if_pos hp] at h
      rw [Option.some.injEq] at h
      subst h
      exact ⟨[], a, t, rfl, hp, by simp, rfl⟩
    · rw [if_neg hp, List.findIdx?_succ] at h
      cases hfind : List.findIdx? p t with
      | none => rw [hfind] at h; simp at h
      | some j =>
        rw [hfind] at h
        simp only [Option.map_some', Option.some.injEq] at h
        subst h
        obtain ⟨l1, x, l2, ht, hx, hl1, herase⟩ := ih j hfind
        subst ht
        refine ⟨a :: l1, x, l2, rfl, hx, ?_, ?_⟩
        · intro y hy
          rcases List.mem_cons.mp hy with rfl | hy2
          · exact Bool.eq_false_iff.mpr hp
          · exact hl1 y hy2
        · rw [List.eraseIdx_cons_succ, herase]
          rfl

/-- C8 counterexample: removing the only registered task returns `true` and
empties the task collection, yet the task's cron schedule is still active — a
later tick still executes its action, contradicting the claim that removal
cancels the schedule. -/
theorem removeTask_does_not_cancel_schedule :
    (removeMonitoringTask agentWithTask "t1").2 = true
    ∧ (removeMonitoringTask agentWithTask "t1").1.data.monitoringTasks = []
    ∧ taskStillScheduled (removeMonitoringTask agentWithTask "t1").1 "t1" = true := by
  refine ⟨?_, ?_, ?_⟩ <;> rfl

/-- C8 (amended): `removeTask` returns true and removes the first task with the
given id from the collection when one exists (leaving earlier tasks untouched
and preserving order), returns false leaving the state unchanged when none
exists — but it never cancels the removed task's cron schedule, which stays
exactly as it was. -/
theorem removeMonitoringTask_spec (a : AgentState) (taskId : String) :
    ((removeMonitoringTask a taskId).2
        = a.data.monitoringTasks.any (fun t => t.id == taskId))
  ∧ ((removeMonitoringTask a taskId).2 = false → removeMonitoringTask a taskId = (a, false))
  ∧ ((removeMonitoringTask a taskId).2 = true →
      ∃ l1 t l2, a.data.monitoringTasks = l1 ++ t :: l2 ∧ t.id = taskId
        ∧ (∀ u ∈ l1, u.id ≠ taskId)
        ∧ (removeMonitoringTask a taskId).1.data.monitoringTasks = l1 ++ l2)
  ∧ ((removeMonitoringTask a taskId).1.cronTasks = a.cronTasks) := by
  have hiss : (List.findIdx? (fun t => t.id == taskId) a.data.monitoringTasks).isSome
      = a.data.monitoringTasks.any (fun t => t.id == taskId) :=
    List.findIdx?_isSome
  unfold removeMonitoringTask
  cases hfind : List.findIdx? (fun t => t.id == taskId) a.data.monitoringTasks with
  | none =>
    rw [hfind] at hiss
    refine ⟨by simpa using hiss, fun _ => rfl, fun hc => absurd hc (by simp), rfl⟩
  | some i =>
    rw [hfind] at hiss
    refine ⟨by simpa using hiss, fun hc => absurd hc (by simp), fun _ => ?_, rfl⟩
    obtain ⟨l1, x, l2, hsplit, hx, hl1, herase⟩ :=
      findIdx_erase_split (fun t => t.id == taskId) a.data.monitoringTasks i hfind
    refine ⟨l1, x, l2, hsplit, by simpa using hx, ?_, herase⟩
    intro u hu
    have := hl1 u hu
    simpa using this

/-- Witness for C8 (amended): the state with one registered task. -/
theorem removeMonitoringTask_spec_witness :
    ((removeMonitoringTask agentWithTask "t1").2
        = agentWithTask.data.monitoringTasks.any (fun t => t.id == "t1"))
    ∧ (removeMonitoringTask agentWithTask "t1").1.cronTasks = agentWithTask.cronTasks
    ∧ ∃ l1 t l2, agentWithTask.data.monitoringTasks = l1 ++ t :: l2 ∧ t.id = "t1"
        ∧ (∀ u ∈ l1, u.id ≠ "t1")
        ∧ (removeMonitoringTask agentWithTask "t1").1.data.monitoringTasks = l1 ++ l2 :=
  ⟨(removeMonitoringTask_spec agentWithTask "t1").1,
   (removeMonitoringTask_spec agentWithTask "t1").2.2.2,
   (removeMonitoringTask_spec agentWithTask "t1").2.2.1 rfl⟩

/-- C10 counterexample: with a recorded cpu usage value of 0 present (`0` is
falsy in JS), `getMetrics` still performs a full collection and mutates the
state (the history grows), contradicting the claim that a present CPU usage
value makes `getMetrics` side-effect free. -/
theorem getMetrics_mutates_with_zero_cpu :
    zeroCpuState.metrics.cpu = some { usage := 0, cores := 4 }
    ∧ zeroCpuState.history = []
    ∧ (getMetrics zeroCpuState (.ok sampleSnapshot) false).1.history
        = [historyPoint sampleSnapshot] := by
  refine ⟨rfl, rfl, ?_⟩
  rfl

/-- C10 (amended): `getMetrics` is not side-effect free.  Whenever the stored
cpu usage is absent or equal to 0 (the JS falsy guard), it runs a full
collect+process cycle: on collection success the state is exactly the
`processMetrics` result (current metrics replaced, history point appended) and
a metrics message is transmitted iff the connection is open; on collection
failure the state is unchanged.  Whenever a nonzero cpu usage value is present,
`getMetrics` returns without modifying any state. -/
theorem getMetrics_effects (s : MonitoringData) (res : Except String Metrics)
    (connected : Bool) :
    (cpuUsageMissing s = true → ∀ m, res = .ok m →
       (getMetrics s res connected).1 = (processMetrics s m connected).1
       ∧ (getMetrics s res connected).1.metrics = m
       ∧ (getMetrics s res connected).1.history =
           (if (s.history ++ [historyPoint m]).length > 100
            then (s.history ++ [historyPoint m]).tail
            else s.history ++ [historyPoint m])
       ∧ (getMetrics s res connected).2.1 = connected)
  ∧ (cpuUsageMissing s = true → ∀ msg, res = .error msg →
       (getMetrics s res connected).1 = s ∧ (getMetrics s res connected).2.1 = false)
  ∧ (cpuUsageMissing s = false →
       (getMetrics s res connected).1 = s ∧ (getMetrics s res connected).2.1 = false)
  ∧ ((s.metrics.cpu = none ∨ ∃ c, s.metrics.cpu = some c ∧ c.usage = 0)
       ↔ cpuUsageMissing s = true) := by
  refine ⟨?_, ?_, ?_, ?_⟩
  · intro hmiss m hres
    subst hres
    unfold getMetrics
    rw [hmiss]
    exact ⟨rfl, rfl, rfl, rfl⟩
  · intro hmiss msg hres
    subst hres
    unfold getMetrics
    rw [hmiss]
    exact ⟨rfl, rfl⟩
  · intro hmiss
    unfold getMetrics
    rw [hmiss]
    exact ⟨rfl, rfl⟩
  · unfold cpuUsageMissing
    cases hc : s.metrics.cpu with
    | none => simp
    | some c => simp [hc]

/-- Witness for C10 (amended): with cpu usage 0 the collection runs and the
state becomes the `processMetrics` result; with a nonzero cpu usage the state
is untouched. -/
theorem getMetrics_effects_witness :
    cpuUsageMissing zeroCpuState = true
    ∧ (getMetrics zeroCpuState (.ok sampleSnapshot) true).1
        = (processMetrics zeroCpuState sampleSnapshot true).1
    ∧ cpuUsageMissing warmCpuState = false
    ∧ (getMetrics warmCpuState (.ok sampleSnapshot) true).1 = warmCpuState :=
  ⟨rfl,
   ((getMetrics_effects zeroCpuState (.ok sampleSnapshot) true).1 rfl
      sampleSnapshot rfl).1,
   rfl,
   ((getMetrics_effects warmCpuState (.ok sampleSnapshot) true).2.2.1
      (by rfl)).1⟩

end PingDao
